import Mathlib

/-
  Verification of the per-step annotation engine of PSR Pro (src/main.py).

  Shallow embedding conventions:
  * Python ints are ℤ; Python floats produced by true division are modelled
    exactly as ℚ (every float arising here is a ratio of machine ints, and
    the properties at issue — integrality, floor values, thresholds — are
    decided far from the float rounding error).
  * `int(x)` (truncation toward zero) is `pyint`.
  * JSON snapshots (json.dumps / json.loads in push_undo / pop_undo) are
    modelled at the structural level by the `Json` value type with
    `stateToJson` / `stateFromJson`; the text layer round-trips exactly in
    Python's json for these values.
  * A raised Python exception is `Except.error ()`.
-/

namespace PSRPro

/-- The two string-discriminated rectangle markup kinds ("highlight" / "redact"). -/
inductive RectKind where
  | highlight
  | redact
deriving DecidableEq, Repr

/-- The "type" tag string stored in a rect object's dict. -/
def RectKind.name : RectKind → String
  | .highlight => "highlight"
  | .redact => "redact"

/-- An annotation object, transcribed from the dict shapes documented at
src/main.py lines 79-81: rect objects `{type,color,width,x1,y1,x2,y2}` and
draw objects `{type,color,width,points}`.  Rect coordinates are produced
exclusively by integer arithmetic in the code (creation, move, resize all
add ints to ints), hence ℤ; stroke points start as ints but handle-resize
divides, hence ℚ. -/
inductive Obj where
  | rect (kind : RectKind) (color : String) (width : ℤ) (x1 y1 x2 y2 : ℤ)
  | draw (color : String) (width : ℤ) (points : List (ℚ × ℚ))
deriving DecidableEq, Repr

/-- A non-destructive crop region `{x1,y1,x2,y2}` (step_crops values). -/
structure Crop where
  x1 : ℤ
  y1 : ℤ
  x2 : ℤ
  y2 : ℤ
deriving DecidableEq, Repr

/-- A step's annotation state: `step_objects[i]` plus optional `step_crops[i]`. -/
structure StepState where
  objects : List Obj
  crop : Option Crop
deriving DecidableEq, Repr

/-- Structural JSON values, the image of Python's json.dumps/json.loads on
the snapshot dicts used by the undo stack. -/
inductive Json where
  | null
  | num (q : ℚ)
  | str (s : String)
  | arr (elems : List Json)
  | dict (fields : List (String × Json))
deriving Repr

/-- Serialize one point `[x, y]`. -/
def pointToJson (p : ℚ × ℚ) : Json := Json.arr [Json.num p.1, Json.num p.2]

/-- Serialize one annotation object to its dict form. -/
def objToJson : Obj → Json
  | .rect kind color w x1 y1 x2 y2 =>
      Json.dict [("type", Json.str kind.name), ("color", Json.str color),
                 ("width", Json.num (w : ℚ)),
                 ("x1", Json.num (x1 : ℚ)), ("y1", Json.num (y1 : ℚ)),
                 ("x2", Json.num (x2 : ℚ)), ("y2", Json.num (y2 : ℚ))]
  | .draw color w pts =>
      Json.dict [("type", Json.str ("draw")), ("color", Json.str color),
                 ("width", Json.num (w : ℚ)),
                 ("points", Json.arr (pts.map pointToJson))]

/-- Serialize the optional crop (None ↔ null). -/
def cropToJson : Option Crop → Json
  | none => Json.null
  | some cr =>
      Json.dict [("x1", Json.num (cr.x1 : ℚ)), ("y1", Json.num (cr.y1 : ℚ)),
                 ("x2", Json.num (cr.x2 : ℚ)), ("y2", Json.num (cr.y2 : ℚ))]

/-- Serialize a whole step state, the dict built in push_undo
(src/main.py lines 450-453). -/
def stateToJson (s : StepState) : Json :=
  Json.dict [("objects", Json.arr (s.objects.map objToJson)),
             ("crop", cropToJson s.crop)]

/-- Read a JSON number back as a Python int. -/
def qToInt (q : ℚ) : Option ℤ := if q.den = 1 then some q.num else none

/-- Recover a rect kind from its "type" tag. -/
def kindOfName (t : String) : Option RectKind :=
  if t = "highlight" then some RectKind.highlight
  else if t = "redact" then some RectKind.redact
  else none

/-- Parse one point. -/
def pointFromJson : Json → Option (ℚ × ℚ)
  | Json.arr [Json.num x, Json.num y] => some (x, y)
  | _ => none

/-- Parse a list of points. -/
def pointsFromJson : List Json → Option (List (ℚ × ℚ))
  | [] => some []
  | j :: rest =>
    match pointFromJson j, pointsFromJson rest with
    | some p, some ps => some (p :: ps)
    | _, _ => none

/-- Parse one annotation object from its dict form. -/
def objFromJson : Json → Option Obj
  | Json.dict [(k1, Json.str t), (k2, Json.str color), (k3, Json.num w),
               (k4, Json.num x1), (k5, Json.num y1),
               (k6, Json.num x2), (k7, Json.num y2)] =>
      if k1 = "type" ∧ k2 = "color" ∧ k3 = "width" ∧
         k4 = "x1" ∧ k5 = "y1" ∧ k6 = "x2" ∧ k7 = "y2" then
        match kindOfName t, qToInt w, qToInt x1, qToInt y1, qToInt x2, qToInt y2 with
        | some kind, some wi, some a, some b, some c, some d =>
            some (Obj.rect kind color wi a b c d)
        | _, _, _, _, _, _ => none
      else none
  | Json.dict [(k1, Json.str t), (k2, Json.str color), (k3, Json.num w),
               (k4, Json.arr pj)] =>
      if k1 = "type" ∧ t = "draw" ∧ k2 = "color" ∧ k3 = "width" ∧ k4 = "points" then
        match qToInt w, pointsFromJson pj with
        | some wi, some ps => some (Obj.draw color wi ps)
        | _, _ => none
      else none
  | _ => none

/-- Parse a list of objects. -/
def objsFromJson : List Json → Option (List Obj)
  | [] => some []
  | j :: rest =>
    match objFromJson j, objsFromJson rest with
    | some o, some os => some (o :: os)
    | _, _ => none

/-- Parse the optional crop. -/
def cropFromJson : Json → Option (Option Crop)
  | Json.null => some none
  | Json.dict [(k1, Json.num a), (k2, Json.num b), (k3, Json.num c), (k4, Json.num d)] =>
      if k1 = "x1" ∧ k2 = "y1" ∧ k3 = "x2" ∧ k4 = "y2" then
        match qToInt a, qToInt b, qToInt c, qToInt d with
        | some a, some b, some c, some d => some (some ⟨a, b, c, d⟩)
        | _, _, _, _ => none
      else none
  | _ => none

/-- Parse a whole step state, the accesses `state["objects"]` / `state["crop"]`
performed by pop_undo (src/main.py lines 460-465). -/
def stateFromJson : Json → Option StepState
  | Json.dict [(k1, Json.arr objs), (k2, cj)] =>
      if k1 = "objects" ∧ k2 = "crop" then
        match objsFromJson objs, cropFromJson cj with
        | some os, some cr => some ⟨os, cr⟩
        | _, _ => none
      else none
  | _ => none

/-- push_undo (src/main.py lines 446-453): serialize `{objects, crop}` and
push it on the step's stack (list head = top of stack). -/
def push_undo (s : StepState) (stack : List Json) : List Json :=
  stateToJson s :: stack

/-- pop_undo (src/main.py lines 456-466).  Empty stack: return False, live
state untouched.  Otherwise `stack.pop()` removes the top snapshot and
json.loads parses it; a parse failure raises (the snapshot is already
gone), modelled as `Except.error ()`; on success the live state is
overwritten wholesale and True is returned. -/
def pop_undo (s : StepState) (stack : List Json) :
    (Except Unit (Bool × StepState)) × List Json :=
  match stack with
  | [] => (Except.ok (false, s), [])
  | top :: rest =>
    match stateFromJson top with
    | none => (Except.error (), rest)
    | some st => (Except.ok (true, st), rest)

/-- Value of one hex digit character (int(·, 16)). -/
def hexDigit (c : Char) : ℕ :=
  if c.isDigit then c.toNat - 48
  else if 'a' ≤ c ∧ c ≤ 'f' then c.toNat - 87
  else if 'A' ≤ c ∧ c ≤ 'F' then c.toNat - 55
  else 0

/-- _hex_to_rgb (src/main.py lines 175-177): strip leading '#', read three
two-digit hex components. -/
def _hex_to_rgb (s : String) : ℕ × ℕ × ℕ :=
  match (s.dropWhile (fun c => c == '#')).toList with
  | [a, b, c, d, e, f] =>
      (hexDigit a * 16 + hexDigit b, hexDigit c * 16 + hexDigit d,
       hexDigit e * 16 + hexDigit f)
  | _ => (0, 0, 0)

/-- One primitive PIL drawing operation issued by _flatten_to_pil, in the
order the code issues them.  Coordinates are relative to the cropped image
(the code subtracts the crop origin before drawing). -/
inductive DrawCmd where
  | rectOutline (x1 y1 x2 y2 : ℤ) (rgb : ℕ × ℕ × ℕ) (width : ℤ)
  | rectFill (x1 y1 x2 y2 : ℤ) (rgb : ℕ × ℕ × ℕ)
  | alphaFill (x1 y1 x2 y2 : ℤ) (rgb : ℕ × ℕ × ℕ) (alpha : ℕ)
  | polyline (pts : List (ℤ × ℤ)) (rgb : ℕ × ℕ × ℕ) (width : ℤ)
  | ellipse (x1 y1 x2 y2 : ℤ) (rgb : ℕ × ℕ × ℕ)
deriving DecidableEq, Repr
def pyint (q : ℚ) : ℤ := if 0 ≤ q then ⌊q⌋ else ⌈q⌉

/-- A StepCard's display geometry: `self._crop_region = (rx1, ry1, rx2, ry2)`
and `self._disp_size = (dw, dh)` (src/main.py lines 1076, 1082). -/
structure Geom where
  rx1 : ℤ
  ry1 : ℤ
  rx2 : ℤ
  ry2 : ℤ
  dw : ℤ
  dh : ℤ
deriving DecidableEq, Repr

/-- StepCard._canvas_to_img (src/main.py lines 1147-1152): canvas pixel to
original image pixel, floored and clamped at 0. -/
def canvas_to_img (g : Geom) (cx cy : ℤ) : ℤ × ℤ :=
  let cw := g.rx2 - g.rx1
  let ch := g.ry2 - g.ry1
  (max 0 (pyint ((g.rx1 : ℚ) + (cx : ℚ) * (cw : ℚ) / (g.dw : ℚ))),
   max 0 (pyint ((g.ry1 : ℚ) + (cy : ℚ) * (ch : ℚ) / (g.dh : ℚ))))

/-- StepCard._img_to_canvas (src/main.py lines 1154-1159). -/
def img_to_canvas (g : Geom) (ix iy : ℤ) : ℤ × ℤ :=
  let cw := g.rx2 - g.rx1
  let ch := g.ry2 - g.ry1
  (pyint (((ix - g.rx1 : ℤ) : ℚ) * (g.dw : ℚ) / (cw : ℚ)),
   pyint (((iy - g.ry1 : ℤ) : ℚ) * (g.dh : ℚ) / (ch : ℚ)))

/-- The display size computed by reload_image (src/main.py lines 1079-1081):
scale the cropped size by `min(CARD_IMG_MAX_W / crop_width, 1.0)`. -/
def card_disp_size (cw ch : ℤ) : ℤ × ℤ :=
  let r : ℚ := min (860 / (cw : ℚ)) 1
  (pyint ((cw : ℚ) * r), pyint ((ch : ℚ) * r))

/-- Flatten's per-object rendering (src/main.py lines 250-275): the PIL
drawing operations issued for one object, given the crop origin (kx1, ky1)
of the cropped base image. -/
def renderObj (kx1 ky1 : ℤ) : Obj → List DrawCmd
  | .rect .highlight color _ x1 y1 x2 y2 =>
      let a1 := min (x1 - kx1) (x2 - kx1)
      let a2 := max (x1 - kx1) (x2 - kx1)
      let b1 := min (y1 - ky1) (y2 - ky1)
      let b2 := max (y1 - ky1) (y2 - ky1)
      ((List.range 5).map (fun k =>
          DrawCmd.rectOutline a1 b1 a2 b2 (_hex_to_rgb color) (5 - (k : ℤ)))) ++
        [DrawCmd.alphaFill a1 b1 a2 b2 (_hex_to_rgb color) 28]
  | .rect .redact _ _ x1 y1 x2 y2 =>
      let a1 := min (x1 - kx1) (x2 - kx1)
      let a2 := max (x1 - kx1) (x2 - kx1)
      let b1 := min (y1 - ky1) (y2 - ky1)
      let b2 := max (y1 - ky1) (y2 - ky1)
      [DrawCmd.rectFill a1 b1 a2 b2 (16, 16, 16),
       DrawCmd.rectOutline a1 b1 a2 b2 (70, 70, 70) 2]
  | .draw color w pts =>
      let ptsC := pts.map (fun p => (pyint p.1 - kx1, pyint p.2 - ky1))
      let r := Int.fdiv w 2
      (if 2 ≤ ptsC.length then [DrawCmd.polyline ptsC (_hex_to_rgb color) w] else []) ++
        ptsC.map (fun q =>
          DrawCmd.ellipse (q.1 - r) (q.2 - r) (q.1 + r) (q.2 + r) (_hex_to_rgb color))

/-- Test for a filled-circle command. -/
def isEllipse : DrawCmd → Bool
  | .ellipse _ _ _ _ _ => true
  | _ => false

/-- The log_data entry fields _flatten_to_pil reads. -/
structure Entry where
  screenshot : Option String
deriving Repr

/-- _get_crop with the image size supplied (src/main.py lines 192-198):
the stored crop, or the full image. -/
def _get_crop (crop : Option Crop) (w h : ℤ) : ℤ × ℤ × ℤ × ℤ :=
  match crop with
  | some c => (c.x1, c.y1, c.x2, c.y2)
  | none => (0, 0, w, h)

/-- Result of a successful flatten: the clamped crop window applied to the
base image, and the drawing operations composited onto it, in order. -/
structure FlatResult where
  cropX1 : ℤ
  cropY1 : ℤ
  cropX2 : ℤ
  cropY2 : ℤ
  cmds : List DrawCmd
deriving Repr

/-- _flatten_to_pil (src/main.py lines 230-276).  `openImage` stands for
Image.open in the session directory: `none` means the named file is missing
or unreadable, in which case Python raises — the function has no
try/except, so the exception propagates (`Except.error ()`).  A step whose
entry has `screenshot: None` yields None (text-only step). -/
def _flatten_to_pil (entry : Entry) (openImage : String → Option (ℤ × ℤ))
    (objects : List Obj) (crop : Option Crop) : Except Unit (Option FlatResult) :=
  match entry.screenshot with
  | none => Except.ok none
  | some nm =>
    match openImage nm with
    | none => Except.error ()
    | some wh =>
      let (cx1, cy1, cx2, cy2) := _get_crop crop wh.1 wh.2
      let sx1 := min cx1 cx2
      let sx2 := max cx1 cx2
      let sy1 := min cy1 cy2
      let sy2 := max cy1 cy2
      let kx1 := max 0 (min sx1 wh.1)
      let ky1 := max 0 (min sy1 wh.2)
      let kx2 := max (kx1 + 1) (min sx2 wh.1)
      let ky2 := max (ky1 + 1) (min sy2 wh.2)
      Except.ok (some ⟨kx1, ky1, kx2, ky2, (objects.map (renderObj kx1 ky1)).flatten⟩)

/-- The handle table (src/main.py lines 115-120): handle index →
`(x1_moves, y1_moves, x2_moves, y2_moves)`. -/
def _HANDLE_FX : List (ℤ × ℤ × ℤ × ℤ) :=
  [(1, 1, 0, 0), (0, 1, 0, 0), (0, 1, 1, 0),
   (1, 0, 0, 0),               (0, 0, 1, 0),
   (1, 0, 0, 1), (0, 0, 0, 1), (0, 0, 1, 1)]

/-- Handle-drag of a rect object (src/main.py lines 1294-1296): each corner
coordinate moves by the drag delta iff its table flag is set. -/
def resize_rect (handle : ℕ) (dx dy x1 y1 x2 y2 : ℤ) : ℤ × ℤ × ℤ × ℤ :=
  let f := _HANDLE_FX.getD handle (0, 0, 0, 0)
  (x1 + dx * f.1, y1 + dy * f.2.1, x2 + dx * f.2.2.1, y2 + dy * f.2.2.2)

/-- Target bounding box of a stroke handle-drag (src/main.py lines
1298-1302): move the snapshot bbox corners per the handle table, then floor
each dimension at 5. -/
def _stroke_target_box (handle : ℕ) (dx dy : ℤ) (bx1 by1 bx2 by2 : ℚ) :
    ℚ × ℚ × ℚ × ℚ :=
  let f := _HANDLE_FX.getD handle (0, 0, 0, 0)
  let nx1 := bx1 + dx * f.1
  let ny1 := by1 + dy * f.2.1
  let nx2 := bx2 + dx * f.2.2.1
  let ny2 := by2 + dy * f.2.2.2
  (nx1, ny1,
   if nx2 < nx1 + 5 then nx1 + 5 else nx2,
   if ny2 < ny1 + 5 then ny1 + 5 else ny2)

/-- Handle-drag of a stroke (src/main.py lines 1297-1307): rescale every
snapshot point proportionally from the snapshot bbox to the target box
(`(bx2-bx1) or 1` guards a zero denominator). -/
def resize_stroke (handle : ℕ) (dx dy : ℤ) (bx1 by1 bx2 by2 : ℚ)
    (pts : List (ℚ × ℚ)) : List (ℚ × ℚ) :=
  let tb := _stroke_target_box handle dx dy bx1 by1 bx2 by2
  let ow := if bx2 - bx1 = 0 then 1 else bx2 - bx1
  let oh := if by2 - by1 = 0 then 1 else by2 - by1
  pts.map (fun p =>
    (tb.1 + (p.1 - bx1) * (tb.2.2.1 - tb.1) / ow,
     tb.2.1 + (p.2 - by1) * (tb.2.2.2 - tb.2.1) / oh))

/-- Move-drag of a stroke (src/main.py line 1286). -/
def move_stroke (dx dy : ℤ) (pts : List (ℚ × ℚ)) : List (ℚ × ℚ) :=
  pts.map (fun p => (p.1 + dx, p.2 + dy))

/-- Move-drag of a rect (src/main.py lines 1283-1284). -/
def move_rect (dx dy x1 y1 x2 y2 : ℤ) : ℤ × ℤ × ℤ × ℤ :=
  (x1 + dx, y1 + dy, x2 + dx, y2 + dy)

/-- Release of a highlight/redact creation drag (src/main.py lines
1345-1357): commit the rect, with sorted corners and width 3, only if both
image-space extents exceed 4. -/
def release_rect_tool (kind : RectKind) (color : String) (g : Geom)
    (sx sy ex ey : ℤ) (objects : List Obj) : List Obj :=
  let i1 := canvas_to_img g sx sy
  let i2 := canvas_to_img g ex ey
  if 4 < |i2.1 - i1.1| ∧ 4 < |i2.2 - i1.2| then
    objects ++ [Obj.rect kind color 3 (min i1.1 i2.1) (min i1.2 i2.2)
                  (max i1.1 i2.1) (max i1.2 i2.2)]
  else objects

/-- Release of a crop drag (src/main.py lines 1326-1342): sort the two
image-space corners and commit only if both extents exceed 10; otherwise
the crop keeps its previous value. -/
def release_crop (g : Geom) (sx sy ex ey : ℤ) (crop : Option Crop) : Option Crop :=
  let i1 := canvas_to_img g sx sy
  let i2 := canvas_to_img g ex ey
  let jx1 := min i1.1 i2.1
  let jx2 := max i1.1 i2.1
  let jy1 := min i1.2 i2.2
  let jy2 := max i1.2 i2.2
  if 10 < jx2 - jx1 ∧ 10 < jy2 - jy1 then some ⟨jx1, jy1, jx2, jy2⟩ else crop

/-- Release of a freehand draw (src/main.py lines 1312-1317): map the
canvas points to image space and append the stroke unconditionally. -/
def release_draw (color : String) (w : ℤ) (g : Geom) (cpts : List (ℤ × ℤ)) : Obj :=
  Obj.draw color w (cpts.map (fun q =>
    (((canvas_to_img g q.1 q.2).1 : ℚ), ((canvas_to_img g q.1 q.2).2 : ℚ))))

/-- A rational that is a Python int (denominator 1). -/
def qIsInt (q : ℚ) : Bool := q.den == 1

/-- All stored coordinates of an object are integer-valued.  Rect
coordinates are ℤ in this embedding because every code path writing them
performs integer arithmetic; stroke points are checked. -/
def objIntegral : Obj → Bool
  | .rect _ _ _ _ _ _ _ => true
  | .draw _ _ pts => pts.all (fun p => qIsInt p.1 && qIsInt p.2)

/-- A complete highlight/redact creation gesture on a step: _on_press with
the tool active pushes an undo snapshot (src/main.py lines 1250-1251), and
_on_release commits or discards the rect (lines 1345-1357); the crop is
untouched. -/
def rect_gesture (kind : RectKind) (color : String) (g : Geom)
    (sx sy ex ey : ℤ) (s : StepState) (stack : List Json) :
    StepState × List Json :=
  let stack2 := push_undo s stack
  (⟨release_rect_tool kind color g sx sy ex ey s.objects, s.crop⟩, stack2)

theorem qToInt_intCast (z : ℤ) : qToInt (z : ℚ) = some z := by
  simp [qToInt]

theorem pointFromJson_pointToJson (p : ℚ × ℚ) :
    pointFromJson (pointToJson p) = some p := by
  simp [pointToJson, pointFromJson]

theorem pointsFromJson_map (pts : List (ℚ × ℚ)) :
    pointsFromJson (pts.map pointToJson) = some pts := by
  induction pts with
  | nil => rfl
  | cons p rest ih => simp [pointsFromJson, pointFromJson_pointToJson, ih]

theorem objFromJson_objToJson (o : Obj) : objFromJson (objToJson o) = some o := by
  cases o with
  | rect kind color w x1 y1 x2 y2 =>
      cases kind <;>
        simp [objToJson, objFromJson, RectKind.name, kindOfName, qToInt_intCast]
  | draw color w pts =>
      simp [objToJson, objFromJson, qToInt_intCast, pointsFromJson_map]

theorem objsFromJson_map (os : List Obj) :
    objsFromJson (os.map objToJson) = some os := by
  induction os with
  | nil => rfl
  | cons o rest ih => simp [objsFromJson, objFromJson_objToJson, ih]

theorem cropFromJson_cropToJson (c : Option Crop) :
    cropFromJson (cropToJson c) = some c := by
  cases c with
  | none => rfl
  | some cr => simp [cropToJson, cropFromJson, qToInt_intCast]

theorem stateFromJson_stateToJson (s : StepState) :
    stateFromJson (stateToJson s) = some s := by
  simp [stateToJson, stateFromJson, objsFromJson_map, cropFromJson_cropToJson]

theorem pyint_of_nonneg {q : ℚ} (h : 0 ≤ q) : pyint q = ⌊q⌋ := if_pos h

/-- One axis of the display→image→display round trip: the recovered canvas
coordinate lies in [c-1, c] whenever the display extent does not exceed the
crop extent. -/
theorem axis_round_trip (r1 r2 d c : ℤ) (h1 : 0 ≤ r1) (h2 : r1 < r2)
    (hd : 1 ≤ d) (hdc : d ≤ r2 - r1) (hc : 0 ≤ c) :
    c - 1 ≤ pyint ((((max 0 (pyint ((r1 : ℚ) + (c : ℚ) * ((r2 - r1 : ℤ) : ℚ) / (d : ℚ))) - r1 : ℤ) : ℚ)) * (d : ℚ) / ((r2 - r1 : ℤ) : ℚ)) ∧
    pyint ((((max 0 (pyint ((r1 : ℚ) + (c : ℚ) * ((r2 - r1 : ℤ) : ℚ) / (d : ℚ))) - r1 : ℤ) : ℚ)) * (d : ℚ) / ((r2 - r1 : ℤ) : ℚ)) ≤ c := by
  have hcw : (0 : ℚ) < ((r2 - r1 : ℤ) : ℚ) := by
    have : (0 : ℤ) < r2 - r1 := by omega
    exact_mod_cast this
  have hdq : (0 : ℚ) < (d : ℚ) := by exact_mod_cast hd
  set cw : ℚ := ((r2 - r1 : ℤ) : ℚ) with hcwdef
  set t : ℚ := (c : ℚ) * cw / (d : ℚ) with htdef
  have ht0 : 0 ≤ t := by
    apply div_nonneg
    · exact mul_nonneg (by exact_mod_cast hc) hcw.le
    · exact hdq.le
  have hsum0 : 0 ≤ (r1 : ℚ) + t := by
    have : (0 : ℚ) ≤ (r1 : ℚ) := by exact_mod_cast h1
    linarith
  have hfl : pyint ((r1 : ℚ) + t) = r1 + ⌊t⌋ := by
    rw [pyint_of_nonneg hsum0, Int.floor_int_add]
  have hft0 : 0 ≤ ⌊t⌋ := Int.floor_nonneg.mpr ht0
  have hmax : max 0 (pyint ((r1 : ℚ) + t)) = r1 + ⌊t⌋ := by
    rw [hfl]; omega
  rw [hmax]
  have hi : ((r1 + ⌊t⌋ - r1 : ℤ) : ℚ) = ((⌊t⌋ : ℤ) : ℚ) := by push_cast; ring
  rw [hi]
  set u : ℚ := ((⌊t⌋ : ℤ) : ℚ) * (d : ℚ) / cw with hudef
  have hu0 : 0 ≤ u := by
    apply div_nonneg
    · exact mul_nonneg (by exact_mod_cast hft0) hdq.le
    · exact hcw.le
  rw [pyint_of_nonneg hu0]
  constructor
  · -- lower bound: u > (t-1)*d/cw = c - d/cw ≥ c - 1
    have hlt : t - 1 < ((⌊t⌋ : ℤ) : ℚ) := Int.sub_one_lt_floor t
    have hmul : (t - 1) * (d : ℚ) / cw < u := by
      rw [hudef]
      exact (div_lt_div_iff_of_pos_right hcw).mpr (mul_lt_mul_of_pos_right hlt hdq)
    have hval : (t - 1) * (d : ℚ) / cw = (c : ℚ) - (d : ℚ) / cw := by
      rw [htdef]; field_simp
    have hratio1 : (d : ℚ) / cw ≤ 1 := by
      rw [div_le_one hcw, hcwdef]; exact_mod_cast hdc
    have : ((c - 1 : ℤ) : ℚ) < u := by
      push_cast
      calc (c : ℚ) - 1 ≤ (c : ℚ) - (d : ℚ) / cw := by linarith
        _ = (t - 1) * (d : ℚ) / cw := hval.symm
        _ < u := hmul
    exact Int.le_floor.mpr this.le
  · -- upper bound: u ≤ t*d/cw = c
    have hle : ((⌊t⌋ : ℤ) : ℚ) ≤ t := Int.floor_le t
    have hmul : u ≤ t * (d : ℚ) / cw := by
      rw [hudef]
      exact (div_le_div_iff_of_pos_right hcw).mpr
        (mul_le_mul_of_nonneg_right hle hdq.le)
    have hval : t * (d : ℚ) / cw = (c : ℚ) := by
      rw [htdef]; field_simp
    have : u ≤ ((c : ℤ) : ℚ) := by rw [← hval]; exact_mod_cast hmul
    calc ⌊u⌋ ≤ ⌊((c : ℤ) : ℚ)⌋ := Int.floor_le_floor this
      _ = c := Int.floor_intCast c

/-- Claim C2 (amended): the display→image→display round trip through
canvas_to_img and img_to_canvas recovers a nonnegative canvas point to
within ±1 pixel in each coordinate, PROVIDED the display size does not
exceed the crop size in either axis — and the display sizes the card
actually computes (card_disp_size, ratio ≤ 1) always satisfy that bound. -/
theorem geometry_round_trip :
    (∀ (g : Geom) (cx cy : ℤ), 0 ≤ g.rx1 → 0 ≤ g.ry1 →
      g.rx1 < g.rx2 → g.ry1 < g.ry2 → 1 ≤ g.dw → 1 ≤ g.dh →
      g.dw ≤ g.rx2 - g.rx1 → g.dh ≤ g.ry2 - g.ry1 → 0 ≤ cx → 0 ≤ cy →
      |(img_to_canvas g (canvas_to_img g cx cy).1 (canvas_to_img g cx cy).2).1 - cx| ≤ 1 ∧
      |(img_to_canvas g (canvas_to_img g cx cy).1 (canvas_to_img g cx cy).2).2 - cy| ≤ 1) ∧
    (∀ cw ch : ℤ, 1 ≤ cw → 0 ≤ ch →
      (card_disp_size cw ch).1 ≤ cw ∧ (card_disp_size cw ch).2 ≤ ch) := by
  constructor
  · intro g cx cy h1 h1y h2 h2y hd hdy hdc hdcy hc hcy
    have hx := axis_round_trip g.rx1 g.rx2 g.dw cx h1 h2 hd hdc hc
    have hy := axis_round_trip g.ry1 g.ry2 g.dh cy h1y h2y hdy hdcy hcy
    constructor
    · simp only [canvas_to_img, img_to_canvas]
      rw [abs_le]; omega
    · simp only [canvas_to_img, img_to_canvas]
      rw [abs_le]; omega
  · intro cw ch hcw hch
    have hcwq : (0 : ℚ) < (cw : ℚ) := by exact_mod_cast hcw
    have hr0 : (0 : ℚ) ≤ min (860 / (cw : ℚ)) 1 := by
      apply le_min
      · positivity
      · norm_num
    have hr1 : min (860 / (cw : ℚ)) 1 ≤ 1 := min_le_right _ _
    constructor
    · show pyint ((cw : ℚ) * min (860 / (cw : ℚ)) 1) ≤ cw
      rw [pyint_of_nonneg (mul_nonneg hcwq.le hr0)]
      have : (cw : ℚ) * min (860 / (cw : ℚ)) 1 ≤ (cw : ℚ) := by
        calc (cw : ℚ) * min (860 / (cw : ℚ)) 1 ≤ (cw : ℚ) * 1 :=
              mul_le_mul_of_nonneg_left hr1 hcwq.le
          _ = (cw : ℚ) := mul_one _
      calc ⌊(cw : ℚ) * min (860 / (cw : ℚ)) 1⌋ ≤ ⌊(cw : ℚ)⌋ := Int.floor_le_floor this
        _ = cw := Int.floor_intCast cw
    · show pyint ((ch : ℚ) * min (860 / (cw : ℚ)) 1) ≤ ch
      have hchq : (0 : ℚ) ≤ (ch : ℚ) := by exact_mod_cast hch
      rw [pyint_of_nonneg (mul_nonneg hchq hr0)]
      have : (ch : ℚ) * min (860 / (cw : ℚ)) 1 ≤ (ch : ℚ) := by
        calc (ch : ℚ) * min (860 / (cw : ℚ)) 1 ≤ (ch : ℚ) * 1 :=
              mul_le_mul_of_nonneg_left hr1 hchq
          _ = (ch : ℚ) := mul_one _
      calc ⌊(ch : ℚ) * min (860 / (cw : ℚ)) 1⌋ ≤ ⌊(ch : ℚ)⌋ := Int.floor_le_floor this
        _ = ch := Int.floor_intCast ch

/-- Claim C2 witness: identity geometry (no crop effect, scale 1) recovers
the point exactly, and a 430-wide display of an 860-wide crop region
recovers (100, 100) to within ±1. -/
theorem geometry_round_trip_witness :
    |(img_to_canvas ⟨0, 0, 860, 860, 430, 430⟩
        (canvas_to_img ⟨0, 0, 860, 860, 430, 430⟩ 101 101).1
        (canvas_to_img ⟨0, 0, 860, 860, 430, 430⟩ 101 101).2).1 - 101| ≤ 1 ∧
    (card_disp_size 860 600).1 ≤ 860 := by
  exact ⟨(geometry_round_trip.1 ⟨0, 0, 860, 860, 430, 430⟩ 101 101
      (by norm_num) (by norm_num) (by norm_num) (by norm_num) (by norm_num)
      (by norm_num) (by norm_num) (by norm_num) (by norm_num) (by norm_num)).1,
    (geometry_round_trip.2 860 600 (by norm_num) (by norm_num)).1⟩

/-- Claim C2 counterexample: with a display wider than the crop (dw = 5,
crop width = 2 — a size the claim's "any display size ≥ 1" allows but the
card never produces), the round trip through canvas_to_img and
img_to_canvas moves the in-range display point x = 4 to x = 2, an error of
2 pixels, violating the claimed ±1 bound. -/
theorem geometry_round_trip_cx :
    (img_to_canvas ⟨0, 0, 2, 2, 5, 5⟩
        (canvas_to_img ⟨0, 0, 2, 2, 5, 5⟩ 4 4).1
        (canvas_to_img ⟨0, 0, 2, 2, 5, 5⟩ 4 4).2).1 = 2 ∧
    ¬ |(img_to_canvas ⟨0, 0, 2, 2, 5, 5⟩
        (canvas_to_img ⟨0, 0, 2, 2, 5, 5⟩ 4 4).1
        (canvas_to_img ⟨0, 0, 2, 2, 5, 5⟩ 4 4).2).1 - 4| ≤ 1 := by
  have h1 : canvas_to_img ⟨0, 0, 2, 2, 5, 5⟩ 4 4 = (1, 1) := by
    simp only [canvas_to_img, pyint]
    norm_num
  have h2 : img_to_canvas ⟨0, 0, 2, 2, 5, 5⟩ 1 1 = (2, 2) := by
    simp only [img_to_canvas, pyint]
    norm_num
  rw [h1]
  simp only [h2]
  norm_num

theorem pyint_intCast (z : ℤ) : pyint ((z : ℤ) : ℚ) = z := by
  unfold pyint
  split
  · exact Int.floor_intCast z
  · exact Int.ceil_intCast z

theorem canvas_to_img_id100 (cx cy : ℤ) (hx : 0 ≤ cx) (hy : 0 ≤ cy) :
    canvas_to_img ⟨0, 0, 100, 100, 100, 100⟩ cx cy = (cx, cy) := by
  simp only [canvas_to_img]
  have ex : ((0 : ℤ) : ℚ) + (cx : ℚ) * ((((100 : ℤ)) - 0 : ℤ) : ℚ) / (((100 : ℤ)) : ℚ) =
      ((cx : ℤ) : ℚ) := by push_cast; ring
  have ey : ((0 : ℤ) : ℚ) + (cy : ℚ) * ((((100 : ℤ)) - 0 : ℤ) : ℚ) / (((100 : ℤ)) : ℚ) =
      ((cy : ℤ) : ℚ) := by push_cast; ring
  rw [ex, ey, pyint_intCast, pyint_intCast, max_eq_right hx, max_eq_right hy]

theorem filter_isEllipse_dots (rgb : ℕ × ℕ × ℕ) (r : ℤ) (pts : List (ℤ × ℤ)) :
    (pts.map (fun q => DrawCmd.ellipse (q.1 - r) (q.2 - r) (q.1 + r) (q.2 + r) rgb)).filter
        isEllipse =
      pts.map (fun q => DrawCmd.ellipse (q.1 - r) (q.2 - r) (q.1 + r) (q.2 + r) rgb) := by
  induction pts with
  | nil => rfl
  | cons p rest ih => simp [List.filter_cons, isEllipse, ih]

theorem handleFX_zero : _HANDLE_FX.getD 0 (0, 0, 0, 0) = (1, 1, 0, 0) := rfl

theorem handleFX_one : _HANDLE_FX.getD 1 (0, 0, 0, 0) = (0, 1, 0, 0) := rfl

theorem handleFX_seven : _HANDLE_FX.getD 7 (0, 0, 0, 0) = (0, 0, 1, 1) := rfl

theorem qIsInt_intCast (z : ℤ) : qIsInt ((z : ℤ) : ℚ) = true := by
  simp [qIsInt]

theorem qIsInt_iff (q : ℚ) : qIsInt q = true ↔ ∃ z : ℤ, q = ((z : ℤ) : ℚ) := by
  constructor
  · intro h
    have hd : q.den = 1 := by simpa [qIsInt] using h
    exact ⟨q.num, ((Rat.den_eq_one_iff q).mp hd).symm⟩
  · rintro ⟨z, rfl⟩
    exact qIsInt_intCast z

theorem qIsInt_add_int (q : ℚ) (z : ℤ) (h : qIsInt q = true) :
    qIsInt (q + ((z : ℤ) : ℚ)) = true := by
  obtain ⟨m, rfl⟩ := (qIsInt_iff q).mp h
  rw [show ((m : ℤ) : ℚ) + ((z : ℤ) : ℚ) = (((m + z : ℤ)) : ℚ) by push_cast; ring]
  exact qIsInt_intCast (m + z)

/-- Claim C3 (amended): flatten renders a FreehandStroke by connecting the
points with a line of the stored width and color when there are at least
two of them, and draws a filled circle of radius width/2 (floor) at EVERY
point — not only the first — so a single-point stroke renders as exactly
one dot and a multi-point stroke gets a dot at each point. -/
theorem stroke_render (color : String) (w kx1 ky1 : ℤ) (pts : List (ℚ × ℚ)) :
    (renderObj kx1 ky1 (Obj.draw color w pts)).filter isEllipse =
      (pts.map (fun p => (pyint p.1 - kx1, pyint p.2 - ky1))).map
        (fun q => DrawCmd.ellipse (q.1 - Int.fdiv w 2) (q.2 - Int.fdiv w 2)
          (q.1 + Int.fdiv w 2) (q.2 + Int.fdiv w 2) (_hex_to_rgb color)) ∧
    (∀ p : ℚ × ℚ, renderObj kx1 ky1 (Obj.draw color w [p]) =
      [DrawCmd.ellipse (pyint p.1 - kx1 - Int.fdiv w 2) (pyint p.2 - ky1 - Int.fdiv w 2)
         (pyint p.1 - kx1 + Int.fdiv w 2) (pyint p.2 - ky1 + Int.fdiv w 2)
         (_hex_to_rgb color)]) ∧
    (∀ (p q : ℚ × ℚ) (rest : List (ℚ × ℚ)),
      (renderObj kx1 ky1 (Obj.draw color w (p :: q :: rest))).head? =
        some (DrawCmd.polyline
          ((p :: q :: rest).map (fun a => (pyint a.1 - kx1, pyint a.2 - ky1)))
          (_hex_to_rgb color) w)) := by
  refine ⟨?_, ?_, ?_⟩
  · simp only [renderObj]
    rw [List.filter_append, filter_isEllipse_dots]
    split
    · simp [isEllipse]
    · simp
  · intro p
    rfl
  · intro p q rest
    simp only [renderObj]
    rw [if_pos]
    · rfl
    · simp

/-- Claim C3 counterexample: a two-point stroke is rendered with a filled
circle at BOTH of its points (two ellipse commands in total), refuting the
claim that the circle is drawn at the first point only. -/
theorem stroke_render_cx :
    ((renderObj 0 0 (Obj.draw ("#ff0000") 3 [(0, 0), (10, 0)])).filter isEllipse).length = 2 ∧
    ((renderObj 0 0 (Obj.draw ("#ff0000") 3 [(0, 0), (10, 0)])).filter isEllipse).length ≠ 1 := by
  have h : renderObj 0 0 (Obj.draw ("#ff0000") 3 [(0, 0), (10, 0)]) =
      [DrawCmd.polyline [(0, 0), (10, 0)] (_hex_to_rgb ("#ff0000")) 3,
       DrawCmd.ellipse (-1) (-1) 1 1 (_hex_to_rgb ("#ff0000")),
       DrawCmd.ellipse 9 (-1) 11 1 (_hex_to_rgb ("#ff0000"))] := by
    simp only [renderObj]
    norm_num [pyint, (by decide : Int.fdiv 3 2 = 1)]
  rw [h]
  constructor
  · rfl
  · decide

/-- Claim C4 (amended): _flatten_to_pil returns None (no raster) exactly for
text-only steps whose entry records no screenshot filename; when a
screenshot IS recorded but the file cannot be opened, the function itself
raises — Image.open's exception propagates out of _flatten_to_pil, which
has no try/except. -/
theorem flatten_missing_base (openImage : String → Option (ℤ × ℤ))
    (objects : List Obj) (crop : Option Crop) :
    (_flatten_to_pil ⟨none⟩ openImage objects crop = Except.ok none) ∧
    (∀ nm, openImage nm = none →
      _flatten_to_pil ⟨some nm⟩ openImage objects crop = Except.error ()) := by
  refine ⟨rfl, fun nm h => ?_⟩
  simp [_flatten_to_pil, h]

/-- Claim C4 witness: a text-only entry flattens to None, and an entry
pointing at an unopenable file raises. -/
theorem flatten_missing_base_witness :
    _flatten_to_pil ⟨none⟩ (fun _ => none) [] none = Except.ok none ∧
    _flatten_to_pil ⟨some ("shot.png")⟩ (fun _ => none) [] none = Except.error () :=
  ⟨(flatten_missing_base (fun _ => none) [] none).1,
   (flatten_missing_base (fun _ => none) [] none).2 ("shot.png") rfl⟩

/-- Claim C4 counterexample: with the recorded base image unreadable,
_flatten_to_pil does NOT return a null/empty result — it raises
(Except.error ()), so "returns null/empty and never propagates an
exception" fails on the code. -/
theorem flatten_unreadable_cx :
    _flatten_to_pil ⟨some ("step_1.png")⟩ (fun _ => none) [] none = Except.error () ∧
    _flatten_to_pil ⟨some ("step_1.png")⟩ (fun _ => none) [] none ≠ Except.ok none :=
  ⟨rfl, fun h => Except.noConfusion h⟩

/-- Claim C5 (amended): when deserializing the top undo snapshot fails,
pop_undo does NOT behave as "nothing to undo" — the json.loads exception
propagates (with the snapshot already removed from the stack); the
fail-safe False return happens only for an empty stack, which leaves the
live state unchanged. -/
theorem pop_undo_corrupt (s : StepState) (j : Json) (rest : List Json)
    (h : stateFromJson j = none) :
    pop_undo s (j :: rest) = (Except.error (), rest) ∧
    pop_undo s [] = (Except.ok (false, s), []) := by
  constructor
  · simp [pop_undo, h]
  · rfl

/-- Claim C5 witness: popping a stack whose top is the (unparsable) JSON
value null raises. -/
theorem pop_undo_corrupt_witness :
    pop_undo ⟨[], none⟩ [Json.null] = (Except.error (), []) :=
  (pop_undo_corrupt ⟨[], none⟩ Json.null [] rfl).1

/-- Claim C5 counterexample: on a corrupt top snapshot pop_undo propagates
an error instead of returning the claimed False / state-unchanged result. -/
theorem pop_undo_corrupt_cx :
    (pop_undo ⟨[], none⟩ [Json.null]).1 = Except.error () ∧
    (pop_undo ⟨[], none⟩ [Json.null]).1 ≠ Except.ok (false, (⟨[], none⟩ : StepState)) :=
  ⟨rfl, fun h => Except.noConfusion h⟩

/-- Claim C6: a completed highlight/redact gesture appends the rect object
(sorted corners, width 3) iff both image-space extents of the dragged
rectangle exceed 4 px, and a completed crop gesture sets the crop iff both
extents exceed 10 px, otherwise leaving objects and crop as they were; with
the identity geometry a crop drag (0,0)-(5,5) leaves the crop unset while
(0,0)-(50,50) sets crop = {0,0,50,50}. -/
theorem release_thresholds (kind : RectKind) (color : String) (g : Geom)
    (sx sy ex ey : ℤ) (objs : List Obj) (crop : Option Crop) :
    (4 < |(canvas_to_img g ex ey).1 - (canvas_to_img g sx sy).1| ∧
     4 < |(canvas_to_img g ex ey).2 - (canvas_to_img g sx sy).2| →
      release_rect_tool kind color g sx sy ex ey objs =
        objs ++ [Obj.rect kind color 3
          (min (canvas_to_img g sx sy).1 (canvas_to_img g ex ey).1)
          (min (canvas_to_img g sx sy).2 (canvas_to_img g ex ey).2)
          (max (canvas_to_img g sx sy).1 (canvas_to_img g ex ey).1)
          (max (canvas_to_img g sx sy).2 (canvas_to_img g ex ey).2)]) ∧
    (¬(4 < |(canvas_to_img g ex ey).1 - (canvas_to_img g sx sy).1| ∧
       4 < |(canvas_to_img g ex ey).2 - (canvas_to_img g sx sy).2|) →
      release_rect_tool kind color g sx sy ex ey objs = objs) ∧
    (10 < |(canvas_to_img g ex ey).1 - (canvas_to_img g sx sy).1| ∧
     10 < |(canvas_to_img g ex ey).2 - (canvas_to_img g sx sy).2| →
      release_crop g sx sy ex ey crop =
        some ⟨min (canvas_to_img g sx sy).1 (canvas_to_img g ex ey).1,
              min (canvas_to_img g sx sy).2 (canvas_to_img g ex ey).2,
              max (canvas_to_img g sx sy).1 (canvas_to_img g ex ey).1,
              max (canvas_to_img g sx sy).2 (canvas_to_img g ex ey).2⟩) ∧
    (¬(10 < |(canvas_to_img g ex ey).1 - (canvas_to_img g sx sy).1| ∧
       10 < |(canvas_to_img g ex ey).2 - (canvas_to_img g sx sy).2|) →
      release_crop g sx sy ex ey crop = crop) ∧
    release_crop ⟨0, 0, 100, 100, 100, 100⟩ 0 0 5 5 none = none ∧
    release_crop ⟨0, 0, 100, 100, 100, 100⟩ 0 0 50 50 none =
      some ⟨0, 0, 50, 50⟩ := by
  refine ⟨?_, ?_, ?_, ?_, ?_, ?_⟩
  · intro h
    simp only [release_rect_tool]
    rw [if_pos h]
  · intro h
    simp only [release_rect_tool]
    rw [if_neg h]
  · intro h
    simp only [release_crop]
    rw [if_pos]
    rw [max_sub_min_eq_abs, max_sub_min_eq_abs]
    exact h
  · intro h
    simp only [release_crop]
    rw [if_neg]
    rw [max_sub_min_eq_abs, max_sub_min_eq_abs]
    exact h
  · simp only [release_crop, canvas_to_img_id100 0 0 le_rfl le_rfl,
      canvas_to_img_id100 5 5 (by norm_num) (by norm_num)]
    norm_num
  · simp only [release_crop, canvas_to_img_id100 0 0 le_rfl le_rfl,
      canvas_to_img_id100 50 50 (by norm_num) (by norm_num)]
    norm_num

/-- Claim C6 witness: a 20×20 highlight drag (above the 4 px minimum)
appends the rect, and a 5×5 crop drag (below the 10 px minimum) leaves the
crop unset. -/
theorem release_thresholds_witness :
    release_rect_tool RectKind.highlight ("#e74c3c") ⟨0, 0, 100, 100, 100, 100⟩
        0 0 20 20 [] =
      [Obj.rect RectKind.highlight ("#e74c3c") 3 0 0 20 20] ∧
    release_crop ⟨0, 0, 100, 100, 100, 100⟩ 0 0 5 5 none = none := by
  have h := release_thresholds RectKind.highlight ("#e74c3c")
    ⟨0, 0, 100, 100, 100, 100⟩ 0 0 20 20 [] none
  have h20 : canvas_to_img ⟨0, 0, 100, 100, 100, 100⟩ 20 20 = (20, 20) :=
    canvas_to_img_id100 20 20 (by norm_num) (by norm_num)
  have h0 : canvas_to_img ⟨0, 0, 100, 100, 100, 100⟩ 0 0 = (0, 0) :=
    canvas_to_img_id100 0 0 le_rfl le_rfl
  refine ⟨?_, h.2.2.2.2.1⟩
  have happ := h.1 (by rw [h20, h0]; norm_num)
  rw [happ, h20, h0]
  norm_num

/-- Claim C7: flatten renders a Highlight by stroking the rectangle outline
at widths 5, 4, 3, 2, 1 — the innermost width-1 stroke drawn last — in the
object's color, and then alpha-compositing a fill of that color at opacity
28/255 over the rectangle's interior. -/
theorem highlight_render (color : String) (w x1 y1 x2 y2 kx1 ky1 : ℤ) :
    renderObj kx1 ky1 (Obj.rect RectKind.highlight color w x1 y1 x2 y2) =
      [DrawCmd.rectOutline (min (x1 - kx1) (x2 - kx1)) (min (y1 - ky1) (y2 - ky1))
          (max (x1 - kx1) (x2 - kx1)) (max (y1 - ky1) (y2 - ky1)) (_hex_to_rgb color) 5,
       DrawCmd.rectOutline (min (x1 - kx1) (x2 - kx1)) (min (y1 - ky1) (y2 - ky1))
          (max (x1 - kx1) (x2 - kx1)) (max (y1 - ky1) (y2 - ky1)) (_hex_to_rgb color) 4,
       DrawCmd.rectOutline (min (x1 - kx1) (x2 - kx1)) (min (y1 - ky1) (y2 - ky1))
          (max (x1 - kx1) (x2 - kx1)) (max (y1 - ky1) (y2 - ky1)) (_hex_to_rgb color) 3,
       DrawCmd.rectOutline (min (x1 - kx1) (x2 - kx1)) (min (y1 - ky1) (y2 - ky1))
          (max (x1 - kx1) (x2 - kx1)) (max (y1 - ky1) (y2 - ky1)) (_hex_to_rgb color) 2,
       DrawCmd.rectOutline (min (x1 - kx1) (x2 - kx1)) (min (y1 - ky1) (y2 - ky1))
          (max (x1 - kx1) (x2 - kx1)) (max (y1 - ky1) (y2 - ky1)) (_hex_to_rgb color) 1,
       DrawCmd.alphaFill (min (x1 - kx1) (x2 - kx1)) (min (y1 - ky1) (y2 - ky1))
          (max (x1 - kx1) (x2 - kx1)) (max (y1 - ky1) (y2 - ky1)) (_hex_to_rgb color) 28] :=
  rfl

/-- Claim C8: the fixed 8-entry handle table drives rect resizing
independently per coordinate — handle 0 (top-left) moves only x1 and y1,
handle 1 (top-center) moves only y1 — while a stroke handle-drag instead
rescales every point proportionally between the old and the new bounding
box, whose dimensions are floored at 5 px, so a bottom-right (handle 7)
resize leaves a point anchored at the old top-left corner unmoved. -/
theorem handle_resize (dx dy x1 y1 x2 y2 : ℤ) (bx1 by1 bx2 by2 : ℚ)
    (rest : List (ℚ × ℚ)) :
    _HANDLE_FX.length = 8 ∧
    resize_rect 0 dx dy x1 y1 x2 y2 = (x1 + dx, y1 + dy, x2, y2) ∧
    resize_rect 1 dx dy x1 y1 x2 y2 = (x1, y1 + dy, x2, y2) ∧
    (∀ hh : ℕ,
      5 ≤ (_stroke_target_box hh dx dy bx1 by1 bx2 by2).2.2.1 -
            (_stroke_target_box hh dx dy bx1 by1 bx2 by2).1 ∧
      5 ≤ (_stroke_target_box hh dx dy bx1 by1 bx2 by2).2.2.2 -
            (_stroke_target_box hh dx dy bx1 by1 bx2 by2).2.1) ∧
    resize_stroke 7 dx dy bx1 by1 bx2 by2 ((bx1, by1) :: rest) =
      (bx1, by1) :: resize_stroke 7 dx dy bx1 by1 bx2 by2 rest := by
  refine ⟨rfl, ?_, ?_, ?_, ?_⟩
  · show ((x1 + dx * 1, y1 + dy * 1, x2 + dx * 0, y2 + dy * 0) : ℤ × ℤ × ℤ × ℤ) =
      (x1 + dx, y1 + dy, x2, y2)
    simp
  · show ((x1 + dx * 0, y1 + dy * 1, x2 + dx * 0, y2 + dy * 0) : ℤ × ℤ × ℤ × ℤ) =
      (x1, y1 + dy, x2, y2)
    simp
  · intro hh
    constructor
    · simp only [_stroke_target_box]
      split <;> rename_i hc
      · linarith
      · linarith [not_lt.mp hc]
    · simp only [_stroke_target_box]
      split <;> rename_i hc
      · linarith
      · linarith [not_lt.mp hc]
  · simp only [resize_stroke, _stroke_target_box, handleFX_seven, List.map_cons]
    simp

/-- Claim C9 (amended): coordinates remain integer-valued through creation
of rect and freehand objects and through move-drag (rect coordinates are
integers by construction in every code path), but a stroke handle-resize
rescales by a rational factor and can produce non-integer point
coordinates, which flatten later truncates with int(). -/
theorem coords_integer (color : String) (w dx dy : ℤ) (g : Geom)
    (cpts : List (ℤ × ℤ)) (kind : RectKind) (sx sy ex ey : ℤ) (objs : List Obj)
    (pts : List (ℚ × ℚ)) :
    objIntegral (release_draw color w g cpts) = true ∧
    (release_rect_tool kind color g sx sy ex ey objs).all objIntegral =
      objs.all objIntegral ∧
    (objIntegral (Obj.draw color w pts) = true →
      objIntegral (Obj.draw color w (move_stroke dx dy pts)) = true) := by
  refine ⟨?_, ?_, ?_⟩
  · simp only [release_draw, objIntegral]
    rw [List.all_eq_true]
    intro p hp
    simp only [List.mem_map] at hp
    obtain ⟨q, hq, rfl⟩ := hp
    simp [qIsInt_intCast]
  · simp only [release_rect_tool]
    split
    · simp [objIntegral]
    · rfl
  · intro h
    simp only [objIntegral, move_stroke, List.all_map, Function.comp] at h ⊢
    rw [List.all_eq_true] at h ⊢
    intro p hp
    have hp2 := h p hp
    rw [Bool.and_eq_true] at hp2
    show (qIsInt (p.1 + ((dx : ℤ) : ℚ)) && qIsInt (p.2 + ((dy : ℤ) : ℚ))) = true
    rw [Bool.and_eq_true]
    exact ⟨qIsInt_add_int _ dx hp2.1, qIsInt_add_int _ dy hp2.2⟩

/-- Claim C9 witness: moving the single-point stroke (4,7) by (+1,+2)
keeps its coordinates integer-valued. -/
theorem coords_integer_witness :
    objIntegral (Obj.draw ("#ff0000") 3 (move_stroke 1 2 [(4, 7)])) = true :=
  (coords_integer ("#ff0000") 3 1 2 ⟨0, 0, 1, 1, 1, 1⟩ [] RectKind.highlight
    0 0 0 0 [] [(4, 7)]).2.2 (by decide)

/-- Claim C9 counterexample: handle-resizing the stroke with points
(0,0),(1,1),(2,2) via the bottom-right handle by (+1,+1) (the target box is
floored to 5×5) moves the middle point to (5/2, 5/2), which is not
integer-valued — so stroke coordinates do NOT stay integers after a
handle-resize. -/
theorem coords_integer_cx :
    resize_stroke 7 1 1 0 0 2 2 [(0, 0), (1, 1), (2, 2)] =
      [(0, 0), (5/2, 5/2), (5, 5)] ∧
    (¬ ∃ z : ℤ, (5/2 : ℚ) = ((z : ℤ) : ℚ)) ∧
    objIntegral (Obj.draw ("#e74c3c") 3
      (resize_stroke 7 1 1 0 0 2 2 [(0, 0), (1, 1), (2, 2)])) = false := by
  have hlist : resize_stroke 7 1 1 0 0 2 2 [(0, 0), (1, 1), (2, 2)] =
      [(0, 0), (5/2, 5/2), (5, 5)] := by
    simp only [resize_stroke, _stroke_target_box, handleFX_seven]
    norm_num
  have hnz : ¬ ∃ z : ℤ, (5/2 : ℚ) = ((z : ℤ) : ℚ) := by
    rintro ⟨z, hz⟩
    rw [div_eq_iff (by norm_num : (2 : ℚ) ≠ 0)] at hz
    have : (5 : ℤ) = z * 2 := by exact_mod_cast hz
    omega
  refine ⟨hlist, hnz, ?_⟩
  rw [hlist]
  have h52 : qIsInt (5/2 : ℚ) = false := by
    cases hb : qIsInt (5/2 : ℚ)
    · rfl
    · exact absurd ((qIsInt_iff _).mp hb) hnz
  simp [objIntegral, h52]

/-- Claim C10: a below-threshold highlight/redact gesture leaves the step's
objects and crop unchanged, yet the press already pushed an undo snapshot:
the undo stack grows by exactly one entry, and a subsequent pop_undo
returns True while restoring a state equal to the current one. -/
theorem discarded_gesture (kind : RectKind) (color : String) (g : Geom)
    (sx sy ex ey : ℤ) (s : StepState) (stack : List Json)
    (h : ¬(4 < |(canvas_to_img g ex ey).1 - (canvas_to_img g sx sy).1| ∧
           4 < |(canvas_to_img g ex ey).2 - (canvas_to_img g sx sy).2|)) :
    (rect_gesture kind color g sx sy ex ey s stack).1 = s ∧
    (rect_gesture kind color g sx sy ex ey s stack).2.length = stack.length + 1 ∧
    pop_undo (rect_gesture kind color g sx sy ex ey s stack).1
        (rect_gesture kind color g sx sy ex ey s stack).2 =
      (Except.ok (true, s), stack) := by
  have hobj : release_rect_tool kind color g sx sy ex ey s.objects = s.objects := by
    simp only [release_rect_tool]
    rw [if_neg h]
  refine ⟨?_, ?_, ?_⟩
  · simp [rect_gesture, hobj]
  · simp [rect_gesture, push_undo]
  · simp [rect_gesture, hobj, push_undo, pop_undo, stateFromJson_stateToJson]

/-- Claim C10 witness: a 2×2 highlight drag on an empty step is discarded,
yet pop_undo afterwards returns True with the unchanged state. -/
theorem discarded_gesture_witness :
    pop_undo (rect_gesture RectKind.highlight ("#e74c3c")
        ⟨0, 0, 100, 100, 100, 100⟩ 0 0 2 2 ⟨[], none⟩ []).1
      (rect_gesture RectKind.highlight ("#e74c3c")
        ⟨0, 0, 100, 100, 100, 100⟩ 0 0 2 2 ⟨[], none⟩ []).2 =
      (Except.ok (true, (⟨[], none⟩ : StepState)), []) := by
  refine (discarded_gesture RectKind.highlight ("#e74c3c")
    ⟨0, 0, 100, 100, 100, 100⟩ 0 0 2 2 ⟨[], none⟩ [] ?_).2.2
  rw [canvas_to_img_id100 2 2 (by norm_num) (by norm_num),
      canvas_to_img_id100 0 0 le_rfl le_rfl]
  norm_num

/-- Claim C1: pushUndo, then any sequence of mutations of the step's
{objects, crop} state, then popUndo, returns True and restores exactly the
state serialized at the push; the live (mutated) state is overwritten and
the stack is back to its pre-push value. -/
theorem undo_round_trip (s : StepState) (stack : List Json)
    (ms : List (StepState → StepState)) :
    pop_undo (ms.foldl (fun t m => m t) s) (push_undo s stack) =
      (Except.ok (true, s), stack) := by
  simp [push_undo, pop_undo, stateFromJson_stateToJson]

end PSRPro
